import Mathlib

/-!
# Verification of the plan–act–reflect agent loop

A shallow embedding of the agent core of this repository:
* `src/agent/graph.py` — the plan/act/reflect loop (`plan_node`, `act_node`,
  `reflect_node`, `_route_after_reflect`), the tool registry, argument
  filtering/validation, the repetition guard and the prerequisite gate;
* `src/tools/logistics.py` — the five deterministic tool stubs;
* `src/mem/ltm.py` — content-hashed long-term memory persistence (`remember`);
* `_extract_json` — the oracle-output recovery discipline shared by
  `src/agent/graph.py` and `src/agent/mva.py`.

Python dictionaries, lists and scalars are embedded as the mutually
inductive `JVal`/`JList`/`JFields` family.  The decision oracle (an external
LLM reached over HTTP) is out of scope per the spec; the loop functions take
the oracle's parsed responses as explicit arguments, so theorems quantify
over every possible oracle behaviour.
-/

namespace GrabHack

/-! ## JSON-like values (Python dicts / lists / scalars) -/

mutual
/-- A Python/JSON value: string, integer, boolean, `None`/`null`, list, dict.
(Numeric literals are embedded as integers; no float appears in the embedded
code paths.) -/
inductive JVal : Type where
  | str (s : String)
  | num (n : Int)
  | bool (b : Bool)
  | null
  | arr (elems : JList)
  | obj (fields : JFields)
deriving Repr, DecidableEq

/-- A list of `JVal`s (spine of a Python list). -/
inductive JList : Type where
  | nil
  | cons (head : JVal) (tail : JList)
deriving Repr, DecidableEq

/-- Ordered fields of a Python dict (insertion order; keys unique in practice). -/
inductive JFields : Type where
  | nil
  | cons (key : String) (val : JVal) (tail : JFields)
deriving Repr, DecidableEq
end

/-- Build a `JList` from a Lean list. -/
def JList.ofList : List JVal → JList
  | [] => .nil
  | x :: xs => .cons x (JList.ofList xs)

/-- Build a `JFields` from a Lean association list. -/
def JFields.ofList : List (String × JVal) → JFields
  | [] => .nil
  | (k, v) :: xs => .cons k v (JFields.ofList xs)

/-- Dict lookup, `d.get(k)`: first (in practice only) binding of `k`. -/
def jfind : JFields → String → Option JVal
  | .nil, _ => none
  | .cons k2 v rest, k => if k2 == k then some v else jfind rest k

/-- `k in d` for a Python dict. -/
def jhas (d : JFields) (k : String) : Bool := (jfind d k).isSome

/-- Dict assignment `d[k] = v`: replaces the value in place if `k` is
present, otherwise appends the new binding (Python insertion-order
semantics). -/
def jset : JFields → String → JVal → JFields
  | .nil, k, v => .cons k v .nil
  | .cons k2 v2 rest, k, v =>
      if k2 == k then .cons k2 v rest else .cons k2 v2 (jset rest k v)

/-- `d.pop(k, None)`: remove the binding of `k` if present. -/
def jpop : JFields → String → JFields
  | .nil, _ => .nil
  | .cons k2 v2 rest, k => if k2 == k then rest else .cons k2 v2 (jpop rest k)

/-- `d.update(other)`: assign every binding of `other` into `d`,
last-write-wins on key collision. -/
def jupdate : JFields → JFields → JFields
  | d, .nil => d
  | d, .cons k v rest => jupdate (jset d k v) rest

/-- `list(d.keys())`. -/
def jkeys : JFields → List String
  | .nil => []
  | .cons k _ rest => k :: jkeys rest

/-- Python truthiness of a value (`bool(v)`): empty string/dict/list, zero,
`False` and `None` are falsy. -/
def jTruthy : JVal → Bool
  | .str s => !(s == "")
  | .num n => !(n == 0)
  | .bool b => b
  | .null => false
  | .arr .nil => false
  | .arr (.cons _ _) => true
  | .obj .nil => false
  | .obj (.cons _ _ _) => true

mutual
/-- Python `==` on embedded values.  Dicts compare as unordered key/value
mappings (insertion order irrelevant), lists element-wise, scalars by value —
exactly Python's deep equality. -/
def jvalBeq : JVal → JVal → Bool
  | .str a, .str b => a == b
  | .num a, .num b => a == b
  | .bool a, .bool b => a == b
  | .null, .null => true
  | .arr xs, .arr ys => jlistBeq xs ys
  | .obj xs, .obj ys => jfieldsSub xs ys && jfieldsSub ys xs
  | _, _ => false
termination_by a b => sizeOf a + sizeOf b

/-- Element-wise Python `==` on lists. -/
def jlistBeq : JList → JList → Bool
  | .nil, .nil => true
  | .cons x xs, .cons y ys => jvalBeq x y && jlistBeq xs ys
  | _, _ => false
termination_by a b => sizeOf a + sizeOf b

/-- Every binding of the first dict is matched (by key, with `==` values)
in the second. -/
def jfieldsSub : JFields → JFields → Bool
  | .nil, _ => true
  | .cons k v rest, other => jfindBeq k v other && jfieldsSub rest other
termination_by a b => sizeOf a + sizeOf b

/-- Does `other` bind `k` to a value `==`-equal to `v`? -/
def jfindBeq : String → JVal → JFields → Bool
  | _, _, .nil => false
  | k, v, .cons k2 v2 rest => if k2 == k then jvalBeq v v2 else jfindBeq k v rest
termination_by _ v fs => sizeOf v + sizeOf fs
end

/-- Python `==` on two dicts (unordered comparison). -/
def jdictEq (a b : JFields) : Bool := jfieldsSub a b && jfieldsSub b a

/-! ## Actions and the tool registry (`graph.py` lines 30–74,
`tools/logistics.py`) -/

/-- An agent action record `{"tool": ..., "args": ...}`. -/
structure Action where
  tool : String
  args : JFields
deriving Repr, DecidableEq

/-- JSON/ASCII whitespace characters (Python `str.strip()` also strips a few
rarer whitespace characters that never occur in the embedded strings). -/
def isWs (c : Char) : Bool := c == ' ' || c == '\t' || c == '\n' || c == '\r'

/-- Python `str.strip()`: drop leading and trailing whitespace. -/
def pyStrip (s : String) : String :=
  ⟨(((s.data.dropWhile isWs).reverse).dropWhile isWs).reverse⟩

/-- `_same_action` (graph.py lines 39–42): equal tool name and `==`-equal
(unordered, deep) argument mapping; `False` whenever either side is
absent/falsy. -/
def _same_action : Option Action → Option Action → Bool
  | some a, some b => a.tool == b.tool && jdictEq a.args b.args
  | _, _ => false

/-- One declared parameter of a tool: its name and, when present, the
default value (`none` = required). -/
structure ToolParam where
  name : String
  dflt : Option JVal
deriving Repr, DecidableEq

/-- The parameter list a tool declares (what `inspect.signature` reports,
positional/keyword parameters only — none of the five tools takes varargs). -/
structure ToolSpec where
  params : List ToolParam
deriving Repr, DecidableEq

/-- `logistics.check_traffic(route_id)`. -/
def check_traffic (route_id : JVal) : JFields :=
  .ofList [("status", .str "ok"), ("route_id", route_id),
           ("observation", .str "clear")]

/-- `logistics.get_merchant_status(merchant_id)`. -/
def get_merchant_status (merchant_id : JVal) : JFields :=
  .ofList [("merchant_id", merchant_id), ("prep_minutes", .num 40),
           ("status", .str "open"), ("capacity", .str "high_wait")]

/-- `logistics.contact_recipient_via_chat(order_id)`. -/
def contact_recipient_via_chat (order_id : JVal) : JFields :=
  .ofList [("order_id", order_id), ("delivered_instructions", .bool true),
           ("message", .str "Please leave at concierge; I\x27ll pick up in 10 min.")]

/-- `logistics.suggest_safe_drop_off(address)`. -/
def suggest_safe_drop_off (address : JVal) : JFields :=
  .ofList [("address", address), ("suggestion", .str "Leave with building concierge"),
           ("risk", .str "low")]

/-- `logistics.find_nearby_locker(address)`. -/
def find_nearby_locker (address : JVal) : JFields :=
  .ofList [("address", address), ("locker", .str "Locker-19 @ 2nd St"),
           ("distance_m", .num 180)]

/-- The `TOOLS` registry (graph.py lines 30–36) with each tool's declared
parameters — every tool has exactly one required (defaultless) parameter. -/
def TOOLS : List (String × ToolSpec) :=
  [("check_traffic", ⟨[⟨"route_id", none⟩]⟩),
   ("get_merchant_status", ⟨[⟨"merchant_id", none⟩]⟩),
   ("contact_recipient_via_chat", ⟨[⟨"order_id", none⟩]⟩),
   ("suggest_safe_drop_off", ⟨[⟨"address", none⟩]⟩),
   ("find_nearby_locker", ⟨[⟨"address", none⟩]⟩)]

/-- Registry lookup `TOOLS[name]` as an option. -/
def toolSpec (name : String) : Option ToolSpec :=
  (TOOLS.find? (fun pr => pr.1 == name)).map Prod.snd

/-- `name in TOOLS`. -/
def toolsContains (name : String) : Bool := (toolSpec name).isSome

/-- `_filter_args_for_tool` (graph.py lines 59–62): keep exactly the argument
keys that match a declared parameter name. -/
def _filter_args_for_tool (spec : ToolSpec) : JFields → JFields
  | .nil => .nil
  | .cons k v rest =>
      if spec.params.any (fun p => p.name == k)
      then .cons k v (_filter_args_for_tool spec rest)
      else _filter_args_for_tool spec rest

/-- `_missing_required_args` (graph.py lines 65–74): the declared parameters
without a default and absent from the provided keys, in declaration order. -/
def _missing_required_args (spec : ToolSpec) (args : JFields) : List String :=
  spec.params.filterMap (fun p =>
    match p.dflt with
    | none => if jhas args p.name then none else some p.name
    | some _ => none)

/-- Keyword invocation `tool(**filtered_args)` of the registry's stubs.
Returns `none` when the required parameter is not among the arguments (in
`act_node` the call is only reached when `_missing_required_args` is empty,
so that case is unreachable there). -/
def callTool (name : String) (args : JFields) : Option JFields :=
  if name == "check_traffic" then (jfind args "route_id").map check_traffic
  else if name == "get_merchant_status" then (jfind args "merchant_id").map get_merchant_status
  else if name == "contact_recipient_via_chat" then (jfind args "order_id").map contact_recipient_via_chat
  else if name == "suggest_safe_drop_off" then (jfind args "address").map suggest_safe_drop_off
  else if name == "find_nearby_locker" then (jfind args "address").map find_nearby_locker
  else none

/-! ## Agent state and step records (`state.py`, graph.py usage) -/

/-- A repair action as proposed by the reflection oracle:
`{"tool_name": ..., "arguments": ...}` (absent keys embedded as `""`/empty). -/
structure RepairAction where
  tool_name : String
  arguments : JFields
deriving Repr, DecidableEq

/-- A reflection decision `{"stop": ..., "why": ..., "repair_action": ...}`,
also the shape stored into a step's `"reflection"` key.  A missing or falsy
`repair_action` is embedded as `none`. -/
structure Decision where
  stop : Bool
  why : String
  repair_action : Option RepairAction
deriving Repr, DecidableEq

/-- One scratchpad (history) record.  The Python code appends dicts holding a
`"thought"`, an `"action"` or an `"observation"` key, and `reflect_node` later
attaches a `"reflection"` key to the most recent record; absent keys are
`none`.  (All five registry tools return dicts, so observations here are
always mappings.) -/
structure Entry where
  thought : Option String := none
  action : Option Action := none
  observation : Option JFields := none
  reflection : Option Decision := none
deriving Repr, DecidableEq

/-- `AgentState` (state.py lines 14–21).  `recent_actions` is the recency
window the graph code reads and writes on the state (capped at 5); the step
counter lives inside `collected_data` under the key `"steps"`. -/
structure AgentState where
  goal : String
  scratchpad : List Entry
  collected_data : JFields
  solved : Bool
  recent_actions : List Action
deriving Repr, DecidableEq

/-- `int(state.collected_data.get("steps", 0))` — the completed-Act counter. -/
def getSteps (cd : JFields) : Int :=
  match jfind cd "steps" with
  | some (.num n) => n
  | _ => 0

/-- Truthiness of `collected_data.get("pending_repair")`. -/
def _pending (cd : JFields) : Bool :=
  match jfind cd "pending_repair" with
  | some v => jTruthy v
  | none => false

/-- The oracle's raw planning proposal
`{"thought": ..., "tool_name": ..., "arguments": ...}` as parsed JSON;
missing keys are `none` (`thought` missing is embedded as `""`, matching
`plan.get("thought", "")`). -/
structure Proposal where
  thought : String
  tool_name : Option String
  arguments : Option JFields
deriving Repr, DecidableEq

/-! ## Plan phase (`plan_node`, graph.py lines 161–287)

The oracle is external: `plan_node` takes the parsed oracle responses as
arguments — `plan` is the proposal in force after the optional coverage
nudge (lines 195–213, which merely substitutes one oracle response for
another), and `reconsider` is the response to the single repetition
re-proposal request (lines 226–236), used only when the guard fires.
Recall hints (lines 163–167) only influence prompt text, not control flow. -/

/-- Lines 216–220: minimal validation of the oracle proposal; an unknown or
missing tool name yields no candidate. -/
def planCandidate0 (plan : Proposal) : Option Action :=
  match plan.tool_name with
  | some t => if toolsContains t then some ⟨t, plan.arguments.getD .nil⟩ else none
  | none => none

/-- Lines 222–225: the repetition guard.  The candidate is checked against
the most recent recorded action and the last two `recent_actions` entries. -/
def planIsRepeat (st : AgentState) (candidate : Option Action) : Bool :=
  match candidate with
  | some c =>
      let recent := st.recent_actions.drop (st.recent_actions.length - 2)
      _same_action (some c) st.recent_actions.getLast? ||
        recent.any (fun ra => _same_action (some c) (some ra))
  | none => false

/-- Lines 226–240: on a detected repeat, one re-proposal is requested; its
tool is adopted when it names a registered tool, otherwise the original
(repeated) candidate is kept. -/
def planAfterGuard (st : AgentState) (candidate : Option Action)
    (reconsider : Proposal) : Option Action :=
  if planIsRepeat st candidate then
    match reconsider.tool_name with
    | some t =>
        if toolsContains t then some ⟨t, reconsider.arguments.getD .nil⟩ else candidate
    | none => candidate
  else candidate

/-- The merchant-status prerequisite action substituted by the gate. -/
def merchantAction : Action :=
  ⟨"get_merchant_status", .ofList [("merchant_id", .str "M-77")]⟩

/-- The traffic-check prerequisite action substituted by the gate. -/
def trafficAction : Action :=
  ⟨"check_traffic", .ofList [("route_id", .str "R-3")]⟩

/-- The recipient-contact prerequisite action substituted by the gate. -/
def contactAction : Action :=
  ⟨"contact_recipient_via_chat", .ofList [("order_id", .str "O-123")]⟩

/-- `("prep_minutes" in cd) or ("merchant_id" in cd)` (line 244). -/
def _has_merchant (cd : JFields) : Bool :=
  jhas cd "prep_minutes" || jhas cd "merchant_id"

/-- `("route_id" in cd) and ("status" in cd)` (line 245). -/
def _has_traffic (cd : JFields) : Bool :=
  jhas cd "route_id" && jhas cd "status"

/-- `("delivered_instructions" in cd)` (line 246). -/
def _attempted_contact (cd : JFields) : Bool :=
  jhas cd "delivered_instructions"

/-- Lines 254–256: the safe default — a safe-drop at the collected address
(or the placeholder when absent/falsy). -/
def defaultDropAction (cd : JFields) : Action :=
  let addr :=
    match jfind cd "address" with
    | some v => if jTruthy v then v else .str "recipient address"
    | none => .str "recipient address"
  ⟨"suggest_safe_drop_off", .ofList [("address", addr)]⟩

/-- Lines 253–256: the safe-default substitution — keep the candidate when
it exists and names a registered tool, otherwise fall back to the safe
drop-off default. -/
def applyGateAux (cd : JFields) : Option Action → Action
  | some a => if toolsContains a.tool then a else defaultDropAction cd
  | none => defaultDropAction cd

/-- Lines 242–256: the prerequisite gate (merchant → traffic → contact),
then the safe-default substitution when no valid candidate remains. -/
def applyGate (cd : JFields) (candidate : Option Action) : Action :=
  applyGateAux cd
    (if !(_has_merchant cd) then some merchantAction
     else if !(_has_traffic cd) then some trafficAction
     else if !(_attempted_contact cd) then some contactAction
     else candidate)

/-- Lines 259–271: default thought text keyed by the chosen tool. -/
def defaultThought (tool : String) : String :=
  if tool == "get_merchant_status" then
    "Confirm merchant prep time to assess delay risk on hot food."
  else if tool == "check_traffic" then
    "Check route impact to reorder stops and avoid cascading delays."
  else if tool == "contact_recipient_via_chat" then
    "Try to obtain delivery instructions from the recipient before safe-drop."
  else if tool == "suggest_safe_drop_off" then
    "Propose a safe-drop (concierge) to protect food integrity and reduce delays."
  else if tool == "find_nearby_locker" then
    "Fallback to a nearby locker if safe-drop is not possible."
  else "Choose next best action per priorities."

/-- Append to the ≤5-element recency window, evicting the oldest entry
(lines 282–284, also 393–395). -/
def pushRecent (ra : List Action) (a : Action) : List Action :=
  if (ra ++ [a]).length > 5 then (ra ++ [a]).drop 1 else ra ++ [a]

/-- The outcome of one Plan phase: the updated state, the action actually
chosen (what line 286 reports and lines 275–282 record), and whether the
repetition re-proposal oracle call was made. -/
structure PlanResult where
  state : AgentState
  chosen : Action
  reconsidered : Bool
deriving Repr, DecidableEq

/-- `plan_node` (graph.py lines 161–287). -/
def plan_node (st : AgentState) (plan reconsider : Proposal) : PlanResult :=
  let candidate0 := planCandidate0 plan
  let reconsidered := planIsRepeat st candidate0
  let candidate1 := planAfterGuard st candidate0 reconsider
  let candidate := applyGate st.collected_data candidate1
  let thought0 := pyStrip plan.thought
  let thought := if thought0 == "" then defaultThought candidate.tool else thought0
  { state :=
      { st with
        scratchpad := st.scratchpad ++
          [{ thought := some thought }, { action := some candidate }],
        recent_actions := pushRecent st.recent_actions candidate },
    chosen := candidate,
    reconsidered := reconsidered }

/-! ## Act phase (`act_node`, graph.py lines 290–333) -/

/-- How an Act phase can abort: reading `scratchpad[-1]` of an empty
scratchpad (IndexError), or `TOOLS[tool_name]` on an unregistered tool
(KeyError — fails loudly, nothing is substituted). -/
inductive ActErr : Type where
  | emptyScratchpad
  | unknownTool (name : String)
deriving Repr, DecidableEq

/-- Insertion sort of strings (models Python `sorted` on the ignored keys). -/
def insertSorted (x : String) : List String → List String
  | [] => [x]
  | y :: ys => if x ≤ y then x :: y :: ys else y :: insertSorted x ys

/-- `sorted(...)` for strings. -/
def sortStrings (l : List String) : List String := l.foldr insertSorted []

/-- The structured soft-failure observation of lines 301–307. -/
def errorObs (tool_name : String) (missing provided : List String) : JFields :=
  .ofList [("error", .str "missing_required_args"),
           ("tool", .str tool_name),
           ("missing", .arr (JList.ofList (missing.map .str))),
           ("provided_keys", .arr (JList.ofList (provided.map .str))),
           ("hint", .str ("Required: " ++ String.intercalate ", " missing))]

/-- Lines 317–332 of `act_node`: append the observation record, merge the
observation into `collected_data`, increment the step counter, clear the
`pending_repair` flag. -/
def actApply (st : AgentState) (obs : JFields) : AgentState :=
  { st with
    scratchpad := st.scratchpad ++ [{ observation := some obs }],
    collected_data :=
      jpop (jset (jupdate st.collected_data obs) "steps"
        (.num (getSteps (jupdate st.collected_data obs) + 1))) "pending_repair" }

/-- `act_node` (graph.py lines 290–333).  On missing required arguments the
tool is not invoked and the structured error observation is recorded
instead; either way the observation is appended, merged into
`collected_data`, the step counter is incremented and `pending_repair` is
cleared. -/
def act_node (st : AgentState) : Except ActErr AgentState :=
  match st.scratchpad.getLast? with
  | none => .error .emptyScratchpad
  | some last =>
    let tool_name := pyStrip (match last.action with | some a => a.tool | none => "")
    match toolSpec tool_name with
    | none => .error (.unknownTool tool_name)
    | some spec =>
      let raw_args := match last.action with | some a => a.args | none => .nil
      let filtered_args := _filter_args_for_tool spec raw_args
      let ignored :=
        sortStrings ((jkeys raw_args).filter (fun k => !(jkeys filtered_args).contains k))
      let missing := _missing_required_args spec filtered_args
      let obs : JFields :=
        if !missing.isEmpty then
          errorObs tool_name missing (jkeys raw_args)
        else
          let o := (callTool tool_name filtered_args).getD .nil
          if !ignored.isEmpty then
            jupdate o (.ofList [("ignored_args", .arr (JList.ofList (ignored.map .str)))])
          else o
      .ok (actApply st obs)

/-! ## Reflect phase (`reflect_node`, graph.py lines 336–401) and routing -/

/-- The unconditional budget decision of line 357. -/
def budgetDecision (maxSteps : Int) : Decision :=
  ⟨true, "Reached max steps (" ++ toString maxSteps ++ ")", none⟩

/-- The override note replacing the decision when a repair repeats the last
action (lines 378–381). -/
def overrideDecision : Decision :=
  ⟨false, "Repair equals last action; continuing plan to avoid repeat loop.", none⟩

/-- `state.scratchpad[-1]["reflection"] = d` — attach (or overwrite) the
reflection of the most recent record; a no-op on an empty scratchpad
(the surrounding `try`/`except` swallows the IndexError). -/
def setLastRefl : List Entry → Decision → List Entry
  | [], _ => []
  | [e], d => [{ e with reflection := some d }]
  | e :: rest, d => e :: setLastRefl rest d

/-- The outcome of one Reflect phase: the updated state and whether the
oracle was consulted (line 359; `false` means the budget override fired). -/
structure ReflectResult where
  state : AgentState
  consulted : Bool
deriving Repr, DecidableEq

/-- `reflect_node` (graph.py lines 336–401).  `oracle` is the decision the
external oracle would return; it is only consulted below the step budget. -/
def reflect_node (st : AgentState) (oracle : Decision) (maxSteps : Int) :
    ReflectResult :=
  let steps := getSteps st.collected_data
  let consulted := !(steps ≥ maxSteps : Bool)
  let decision := if steps ≥ maxSteps then budgetDecision maxSteps else oracle
  let st1 := { st with scratchpad := setLastRefl st.scratchpad decision }
  match decision.repair_action with
  | some repair =>
      let tool_name := pyStrip repair.tool_name
      let candidate : Action := ⟨tool_name, repair.arguments⟩
      if _same_action (some candidate) st1.recent_actions.getLast? then
        ⟨{ st1 with
           solved := false,
           scratchpad := setLastRefl st1.scratchpad overrideDecision }, consulted⟩
      else
        ⟨{ st1 with
           solved := false,
           collected_data := jset st1.collected_data "pending_repair" (.bool true),
           scratchpad := st1.scratchpad ++
             [{ thought := some "repair", action := some candidate }],
           recent_actions := pushRecent st1.recent_actions candidate }, consulted⟩
  | none => ⟨{ st1 with solved := decision.stop }, consulted⟩

/-- `_route_after_reflect` (graph.py lines 412–417). -/
def _route_after_reflect (st : AgentState) : String :=
  if st.solved then "END"
  else if _pending st.collected_data then "act"
  else "plan"

/-- The unconditional edges of `build_graph` (lines 409–411); after
`reflect` the conditional router `_route_after_reflect` applies, and `END`
is terminal (no outgoing edge). -/
def graph_edges : List (String × String) :=
  [("START", "plan"), ("plan", "act"), ("act", "reflect")]

/-! ## Long-term memory (`mem/ltm.py` lines 59–90) -/

/-- Escape one character for a JSON string literal. -/
def escChar (c : Char) : String :=
  if c == '"' then "\\\""
  else if c == '\\' then "\\\\"
  else if c == '\n' then "\\n"
  else if c == '\t' then "\\t"
  else if c == '\r' then "\\r"
  else String.singleton c

/-- Render a JSON string literal. -/
def jstrRender (s : String) : String :=
  "\"" ++ String.join (s.data.map escChar) ++ "\""

mutual
/-- `json.dumps` of a value (default separators).  The embedding serializes
fields in their construction order; `summaryObj` below already lists its
keys sorted, mirroring `sort_keys=True` — the development relies only on
serialization being a deterministic function of the value. -/
def jdumpVal : JVal → String
  | .str s => jstrRender s
  | .num n => toString n
  | .bool b => if b then "true" else "false"
  | .null => "null"
  | .arr l => "[" ++ jdumpList l ++ "]"
  | .obj f => "\x7b" ++ jdumpFields f ++ "\x7d"

/-- Serialize list elements, comma separated. -/
def jdumpList : JList → String
  | .nil => ""
  | .cons x .nil => jdumpVal x
  | .cons x (.cons y rest) => jdumpVal x ++ ", " ++ jdumpList (.cons y rest)

/-- Serialize dict fields, comma separated. -/
def jdumpFields : JFields → String
  | .nil => ""
  | .cons k v .nil => jstrRender k ++ ": " ++ jdumpVal v
  | .cons k v (.cons k2 v2 rest) =>
      jstrRender k ++ ": " ++ jdumpVal v ++ ", " ++ jdumpFields (.cons k2 v2 rest)
end

/-- The argument of `remember`: `{"goal": ..., "scratchpad": [...]}` with the
scratchpad entries as JSON values. -/
structure RunDict where
  goal : String
  scratchpad : List JVal
deriving Repr, DecidableEq

/-- ltm.py lines 69–77: the compact summary object — goal, last three
scratchpad steps and the final step (fields listed in sorted key order, as
`json.dumps(..., sort_keys=True)` emits them). -/
def summaryObj (r : RunDict) : JVal :=
  .obj (.ofList
    [("key_steps", .arr (JList.ofList (r.scratchpad.drop (r.scratchpad.length - 3)))),
     ("problem", .str r.goal),
     ("resolution", r.scratchpad.getLast?.getD (.obj .nil))])

/-- The canonicalized summary text (`json.dumps(summary_obj, sort_keys=True)`). -/
def summaryText (r : RunDict) : String := jdumpVal (summaryObj r)

/-- `_stable_id` (ltm.py lines 59–61): a stable hex digest of the text.
`hashlib.sha1` is an external library; it is modelled as a deterministic
digest — the development relies only on identical texts mapping to the
identical identifier. -/
def _stable_id (text : String) : String :=
  toString (text.data.foldl (fun h c => (h * 31 + c.toNat) % 1000000007) 7)

/-- One stored vector-store record (the embedding vector, produced by the
external `embed` service, does not affect identity or entry count and is
omitted). -/
structure MemEntry where
  id : String
  document : String
deriving Repr, DecidableEq

/-- ChromaDB `collection.upsert(ids=[id], documents=[doc])`: replace the
record with that id when present, otherwise append it. -/
def upsert (store : List MemEntry) (id doc : String) : List MemEntry :=
  if store.any (fun e => e.id == id)
  then store.map (fun e => if e.id == id then ⟨id, doc⟩ else e)
  else store ++ [⟨id, doc⟩]

/-- `remember` (ltm.py lines 64–90): canonicalize the summary, derive the
content-hash identifier and upsert. -/
def remember (store : List MemEntry) (r : RunDict) : List MemEntry :=
  upsert store (_stable_id (summaryText r)) (summaryText r)

/-- Number of stored entries carrying a given identifier. -/
def countWithId (store : List MemEntry) (id : String) : Nat :=
  (store.filter (fun e => e.id == id)).length

/-! ## Oracle output recovery (`_extract_json`, graph.py lines 77–85;
the identical helper in mva.py lines 34–47) -/

/-- Drop leading JSON whitespace. -/
def skipWs : List Char → List Char
  | [] => []
  | c :: rest => if isWs c then skipWs rest else c :: rest

/-- The `{` character. -/
def openBrace : Char := Char.ofNat 123

/-- The `}` character. -/
def closeBrace : Char := Char.ofNat 125

/-- Parse the body of a JSON string literal (opening quote already
consumed), handling the common escapes; `\u` escapes are outside the
modelled fragment. -/
def parseStringBody : List Char → List Char → Option (String × List Char)
  | [], _ => none
  | c :: rest, acc =>
    if c == '"' then some (⟨acc⟩, rest)
    else if c == '\\' then
      match rest with
      | [] => none
      | e :: rest2 =>
        if e == '"' then parseStringBody rest2 (acc ++ ['"'])
        else if e == '\\' then parseStringBody rest2 (acc ++ ['\\'])
        else if e == '/' then parseStringBody rest2 (acc ++ ['/'])
        else if e == 'n' then parseStringBody rest2 (acc ++ ['\n'])
        else if e == 't' then parseStringBody rest2 (acc ++ ['\t'])
        else if e == 'r' then parseStringBody rest2 (acc ++ ['\r'])
        else none
    else parseStringBody rest (acc ++ [c])

/-- Consume a run of decimal digits (at least one), returning its value. -/
def parseDigits : List Char → Nat → Bool → Option (Nat × List Char)
  | [], acc, seen => if seen then some (acc, []) else none
  | c :: rest, acc, seen =>
    if c.isDigit then parseDigits rest (acc * 10 + (c.toNat - 48)) true
    else if seen then some (acc, c :: rest) else none

/-- Reject a fractional part or exponent after the integral digits (float
literals are outside the modelled fragment). -/
def noFracAhead : List Char → Bool
  | [] => true
  | c :: _ => !(c == '.' || c == 'e' || c == 'E')

/-- Expect a literal character sequence. -/
def expectChars : List Char → List Char → Option (List Char)
  | [], cs => some cs
  | _, [] => none
  | l :: ls, c :: cs => if c == l then expectChars ls cs else none

mutual
/-- Recursive-descent `json.loads` on the modelled fragment (objects,
arrays, strings with common escapes, integers, booleans, null).  The fuel
is structural bookkeeping only; `loads` supplies more than the input
length, which bounds the recursion depth. -/
def parseVal : Nat → List Char → Option (JVal × List Char)
  | 0, _ => none
  | fuel + 1, cs =>
    match skipWs cs with
    | [] => none
    | c :: rest =>
      if c == openBrace then
        match skipWs rest with
        | [] => none
        | d :: rest2 =>
          if d == closeBrace then some (.obj .nil, rest2)
          else (parseFields fuel (d :: rest2)).map (fun pr => (.obj pr.1, pr.2))
      else if c == '[' then
        match skipWs rest with
        | [] => none
        | d :: rest2 =>
          if d == ']' then some (.arr .nil, rest2)
          else (parseElems fuel (d :: rest2)).map (fun pr => (.arr pr.1, pr.2))
      else if c == '"' then
        (parseStringBody rest []).map (fun pr => (.str pr.1, pr.2))
      else if c == 't' then
        (expectChars ['r', 'u', 'e'] rest).map (fun r => (.bool true, r))
      else if c == 'f' then
        (expectChars ['a', 'l', 's', 'e'] rest).map (fun r => (.bool false, r))
      else if c == 'n' then
        (expectChars ['u', 'l', 'l'] rest).map (fun r => (.null, r))
      else if c == '-' then
        (parseDigits rest 0 false).bind (fun pr =>
          if noFracAhead pr.2 then some (.num (-(pr.1 : Int)), pr.2) else none)
      else if c.isDigit then
        (parseDigits (c :: rest) 0 false).bind (fun pr =>
          if noFracAhead pr.2 then some (.num (pr.1 : Int), pr.2) else none)
      else none

/-- Parse `"key": value (, ...)* closeBrace` object fields. -/
def parseFields : Nat → List Char → Option (JFields × List Char)
  | 0, _ => none
  | fuel + 1, cs =>
    match skipWs cs with
    | [] => none
    | c :: rest =>
      if c == '"' then
        (parseStringBody rest []).bind (fun kr =>
          match skipWs kr.2 with
          | ':' :: r2 =>
            (parseVal fuel r2).bind (fun vr =>
              match skipWs vr.2 with
              | ',' :: r4 =>
                (parseFields fuel r4).map (fun fr => (.cons kr.1 vr.1 fr.1, fr.2))
              | d :: r4 =>
                if d == closeBrace then some (.cons kr.1 vr.1 .nil, r4) else none
              | [] => none)
          | _ => none)
      else none

/-- Parse `value (, ...)* ]` array elements. -/
def parseElems : Nat → List Char → Option (JList × List Char)
  | 0, _ => none
  | fuel + 1, cs =>
    (parseVal fuel cs).bind (fun vr =>
      match skipWs vr.2 with
      | ',' :: r2 => (parseElems fuel r2).map (fun er => (.cons vr.1 er.1, er.2))
      | d :: r2 => if d == ']' then some (.cons vr.1 .nil, r2) else none
      | [] => none)
end

/-- `json.loads`: parse one value and require only whitespace to remain
("Extra data" otherwise). -/
def loads (s : String) : Option JVal :=
  match parseVal (s.length + 1) s.data with
  | some (v, rest) => if (skipWs rest).isEmpty then some v else none
  | none => none

/-- Index of the first occurrence of a character. -/
def firstIdxOf (cs : List Char) (target : Char) : Option Nat :=
  cs.findIdx? (· == target)

/-- Index of the last occurrence of a character. -/
def lastIdxOf (cs : List Char) (target : Char) : Option Nat :=
  (cs.reverse.findIdx? (· == target)).map (fun i => cs.length - 1 - i)

/-- The substring matched by `re.search(r"\x7b[\s\S]*\x7d", text)`:
leftmost-greedy, i.e. from the first open brace to the last close brace of
the whole text; a match exists iff some close brace occurs after the first
open brace. -/
def _extract_json_span (s : String) : Option String :=
  match firstIdxOf s.data openBrace, lastIdxOf s.data closeBrace with
  | some i, some j => if i < j then some ⟨(s.data.drop i).take (j - i + 1)⟩ else none
  | _, _ => none

/-- How `_extract_json` can fail: the final
`ValueError("Model did not return valid JSON: ...")`, which embeds the raw
text, or the `json.JSONDecodeError` propagating uncaught from the second
`json.loads` (whose message carries position information, not the raw
text). -/
inductive ExtractErr : Type where
  | valueError (raw : String)
  | jsonDecodeError
deriving Repr, DecidableEq

/-- `_extract_json` (graph.py lines 77–85 = mva.py lines 34–47): direct
parse; on failure parse the greedy first-open-brace‥last-close-brace span
(its parse error propagates unwrapped); only when no span exists, raise the
ValueError that preserves the raw text. -/
def _extract_json (s : String) : Except ExtractErr JVal :=
  match loads s with
  | some v => .ok v
  | none =>
    match _extract_json_span s with
    | some sub =>
      match loads sub with
      | some v => .ok v
      | none => .error .jsonDecodeError
    | none => .error (.valueError s)

/-- Scan forward from an open brace, tracking nesting depth, to the first
position where the braces balance. -/
def takeBalanced : List Char → Nat → List Char → Option (List Char)
  | [], _, _ => none
  | c :: rest, depth, acc =>
    if c == openBrace then takeBalanced rest (depth + 1) (acc ++ [c])
    else if c == closeBrace then
      if depth == 1 then some (acc ++ [c])
      else takeBalanced rest (depth - 1) (acc ++ [c])
    else takeBalanced rest depth (acc ++ [c])

/-- Modelled from the spec: the "first balanced `\x7b...\x7d` substring" of
the text (spec §6 parsing discipline), for comparison with the source's
greedy span. -/
def firstBalancedSpan (s : String) : Option String :=
  (takeBalanced (s.data.dropWhile (fun c => !(c == openBrace))) 0 []).map
    (fun l => (⟨l⟩ : String))

/-- Modelled from the spec: the parsing discipline as the spec words it —
direct parse, then parse of the first *balanced* brace substring, then a
format error preserving the raw text. -/
def _extract_json_specBalanced (s : String) : Except ExtractErr JVal :=
  match loads s with
  | some v => .ok v
  | none =>
    match firstBalancedSpan s with
    | some sub =>
      match loads sub with
      | some v => .ok v
      | none => .error .jsonDecodeError
    | none => .error (.valueError s)

/-! ## Shared helper lemmas -/

/-- The action a Plan phase records is exactly the gate's output on the
guard-adjusted candidate. -/
theorem plan_node_chosen (st : AgentState) (p r : Proposal) :
    (plan_node st p r).chosen =
      applyGate st.collected_data (planAfterGuard st (planCandidate0 p) r) := rfl

/-- With the merchant facts absent, the gate substitutes the merchant-status
action whatever the candidate was. -/
theorem applyGate_no_merchant (cd : JFields) (c : Option Action)
    (h : _has_merchant cd = false) : applyGate cd c = merchantAction := by
  simp [applyGate, applyGateAux, h, merchantAction, toolsContains, toolSpec, TOOLS]

/-- With merchant facts present but traffic facts absent, the gate
substitutes the traffic-check action. -/
theorem applyGate_no_traffic (cd : JFields) (c : Option Action)
    (h1 : _has_merchant cd = true) (h2 : _has_traffic cd = false) :
    applyGate cd c = trafficAction := by
  simp [applyGate, applyGateAux, h1, h2, trafficAction, toolsContains, toolSpec, TOOLS]

/-- With merchant and traffic facts present but no contact fact, the gate
substitutes the recipient-contact action. -/
theorem applyGate_no_contact (cd : JFields) (c : Option Action)
    (h1 : _has_merchant cd = true) (h2 : _has_traffic cd = true)
    (h3 : _attempted_contact cd = false) : applyGate cd c = contactAction := by
  simp [applyGate, applyGateAux, h1, h2, h3, contactAction, toolsContains, toolSpec, TOOLS]

/-- With every prerequisite fact present, the gate passes the
(possibly absent) candidate to the safe-default substitution unchanged. -/
theorem applyGate_all_facts (cd : JFields) (c : Option Action)
    (h1 : _has_merchant cd = true) (h2 : _has_traffic cd = true)
    (h3 : _attempted_contact cd = true) :
    applyGate cd c = applyGateAux cd c := by
  simp [applyGate, h1, h2, h3]

/-- The safe default names a registered tool. -/
theorem defaultDropAction_registered (cd : JFields) :
    toolsContains (defaultDropAction cd).tool = true := by
  simp [defaultDropAction, toolsContains, toolSpec, TOOLS]

/-- The safe-default substitution step always yields a registered tool. -/
theorem applyGateAux_registered (cd : JFields) (g : Option Action) :
    toolsContains (applyGateAux cd g).tool = true := by
  cases g with
  | none => exact defaultDropAction_registered cd
  | some a =>
      cases hr : toolsContains a.tool with
      | false => simp [applyGateAux, hr]; exact defaultDropAction_registered cd
      | true => simp [applyGateAux, hr]

/-- The gate's output always names a registered tool. -/
theorem applyGate_registered (cd : JFields) (c : Option Action) :
    toolsContains (applyGate cd c).tool = true := by
  unfold applyGate
  exact applyGateAux_registered cd _

/-- Attaching a reflection never changes the history length. -/
theorem setLastRefl_length (sp : List Entry) (d : Decision) :
    (setLastRefl sp d).length = sp.length := by
  induction sp with
  | nil => rfl
  | cons e rest ih =>
      cases rest with
      | nil => rfl
      | cons e2 rest2 => simpa [setLastRefl] using ih

/-- `getLast?` ignores the head of a list with a nonempty tail. -/
theorem getLast?_cons_of_ne_nil {α : Type} (a : α) {l : List α} (h : l ≠ []) :
    (a :: l).getLast? = l.getLast? := by
  cases l with
  | nil => exact absurd rfl h
  | cons b t => exact List.getLast?_cons_cons

/-- Attaching a reflection rewrites only the final record. -/
theorem setLastRefl_getLast? (sp : List Entry) (d : Decision) :
    (setLastRefl sp d).getLast? =
      sp.getLast?.map (fun e => { e with reflection := some d }) := by
  induction sp with
  | nil => rfl
  | cons e rest ih =>
      cases rest with
      | nil => rfl
      | cons e2 rest2 =>
          have hne : setLastRefl (e2 :: rest2) d ≠ [] := by
            intro hcon
            have hlen := setLastRefl_length (e2 :: rest2) d
            rw [hcon] at hlen
            simp at hlen
          show (e :: setLastRefl (e2 :: rest2) d).getLast? = _
          rw [getLast?_cons_of_ne_nil e hne, ih,
              getLast?_cons_of_ne_nil e (by simp : (e2 :: rest2) ≠ [])]

/-- All records before the final one are untouched by reflection
attachment. -/
theorem setLastRefl_take_pred (sp : List Entry) (d : Decision) :
    (setLastRefl sp d).take (sp.length - 1) = sp.take (sp.length - 1) := by
  induction sp with
  | nil => rfl
  | cons e rest ih =>
      cases rest with
      | nil => rfl
      | cons e2 rest2 =>
          show (e :: setLastRefl (e2 :: rest2) d).take ((e :: e2 :: rest2).length - 1)
              = (e :: e2 :: rest2).take ((e :: e2 :: rest2).length - 1)
          simp only [List.length_cons, Nat.add_sub_cancel] at ih ⊢
          simp only [List.take_succ_cons]
          rw [ih]

/-- Erase the reflection annotation of a record (used to state that phases
modify at most that annotation). -/
def clearRefl (e : Entry) : Entry := { e with reflection := none }

/-- Up to reflection annotations, reflection attachment is the identity. -/
theorem setLastRefl_map_clearRefl (sp : List Entry) (d : Decision) :
    (setLastRefl sp d).map clearRefl = sp.map clearRefl := by
  induction sp with
  | nil => rfl
  | cons e rest ih =>
      cases rest with
      | nil => simp [setLastRefl, clearRefl]
      | cons e2 rest2 => simpa [setLastRefl] using ih

/-- The recency window still ends in the action just pushed. -/
theorem pushRecent_getLast? (ra : List Action) (a : Action) :
    (pushRecent ra a).getLast? = some a := by
  unfold pushRecent
  split
  · next h =>
      cases ra with
      | nil => simp at h
      | cons x rest => simp
  · simp

/-! ## C1 — prerequisite gate ordering -/

/-- C1: for every run state whose facts lack the merchant sentinel keys
(no `"prep_minutes"`, no `"merchant_id"`), the Plan phase's chosen action is
the merchant-status tool regardless of the oracle's proposal (and of the
re-proposal); more generally the gate deterministically forces
merchant-status, then traffic-check (until `"route_id"` and `"status"` are
both present), then recipient-contact (until `"delivered_instructions"` is
present), and a drop-off or locker action can only be chosen once all three
prerequisite facts are present. -/
theorem C1_prerequisite_gate_order (st : AgentState) (p r : Proposal) :
    (_has_merchant st.collected_data = false →
        (plan_node st p r).chosen = merchantAction)
  ∧ (_has_merchant st.collected_data = true → _has_traffic st.collected_data = false →
        (plan_node st p r).chosen = trafficAction)
  ∧ (_has_merchant st.collected_data = true → _has_traffic st.collected_data = true →
      _attempted_contact st.collected_data = false →
        (plan_node st p r).chosen = contactAction)
  ∧ (((plan_node st p r).chosen.tool = "suggest_safe_drop_off" ∨
      (plan_node st p r).chosen.tool = "find_nearby_locker") →
        _has_merchant st.collected_data = true ∧
        _has_traffic st.collected_data = true ∧
        _attempted_contact st.collected_data = true) := by
  refine ⟨?_, ?_, ?_, ?_⟩
  · intro h
    rw [plan_node_chosen]
    exact applyGate_no_merchant _ _ h
  · intro h1 h2
    rw [plan_node_chosen]
    exact applyGate_no_traffic _ _ h1 h2
  · intro h1 h2 h3
    rw [plan_node_chosen]
    exact applyGate_no_contact _ _ h1 h2 h3
  · intro htool
    by_cases h1 : _has_merchant st.collected_data = true
    · by_cases h2 : _has_traffic st.collected_data = true
      · by_cases h3 : _attempted_contact st.collected_data = true
        · exact ⟨h1, h2, h3⟩
        · rw [plan_node_chosen,
              applyGate_no_contact _ _ h1 h2 (by simpa using h3)] at htool
          simp [contactAction] at htool
      · rw [plan_node_chosen,
            applyGate_no_traffic _ _ h1 (by simpa using h2)] at htool
        simp [trafficAction] at htool
    · rw [plan_node_chosen,
          applyGate_no_merchant _ _ (by simpa using h1)] at htool
      simp [merchantAction] at htool

/-- Witness for C1: with empty facts, a locker proposal (and locker
re-proposal) is overridden by the merchant-status action. -/
theorem C1_witness :
    _has_merchant JFields.nil = false ∧
    (plan_node ⟨"Driver delayed at pickup", [], .nil, false, []⟩
        ⟨"", some "find_nearby_locker", some (.ofList [("address", .str "A")])⟩
        ⟨"", some "find_nearby_locker", some (.ofList [("address", .str "A")])⟩).chosen
      = merchantAction :=
  ⟨rfl,
   (C1_prerequisite_gate_order ⟨"Driver delayed at pickup", [], .nil, false, []⟩
      ⟨"", some "find_nearby_locker", some (.ofList [("address", .str "A")])⟩
      ⟨"", some "find_nearby_locker", some (.ofList [("address", .str "A")])⟩).1 rfl⟩

/-! ## C2 — step-budget termination -/

/-- C2: whenever the completed-Act counter has reached the step budget, the
Reflect phase is independent of the oracle (which it does not consult), it
records the budget decision — `stop = true` with a reason naming the budget
value — as the reflection of the last history record, the state becomes
solved, and the router sends the run to `END`, a node with no outgoing
edge. -/
theorem C2_step_budget_stop (st : AgentState) (o o2 : Decision) (m : Int)
    (h : getSteps st.collected_data ≥ m) :
    reflect_node st o m = reflect_node st o2 m
  ∧ (reflect_node st o m).consulted = false
  ∧ (reflect_node st o m).state.solved = true
  ∧ (∀ e, (reflect_node st o m).state.scratchpad.getLast? = some e →
        e.reflection = some (budgetDecision m))
  ∧ (budgetDecision m).stop = true
  ∧ (budgetDecision m).why = "Reached max steps (" ++ toString m ++ ")"
  ∧ _route_after_reflect (reflect_node st o m).state = "END"
  ∧ graph_edges.all (fun pr => !(pr.1 == "END")) = true := by
  have hred : ∀ o' : Decision, reflect_node st o' m =
      ⟨{ st with scratchpad := setLastRefl st.scratchpad (budgetDecision m),
                 solved := true }, false⟩ := by
    intro o'
    simp [reflect_node, h, budgetDecision]
  refine ⟨by rw [hred o, hred o2], by rw [hred o], by rw [hred o], ?_, rfl, rfl, ?_, rfl⟩
  · intro e he
    rw [hred o] at he
    simp only [setLastRefl_getLast?] at he
    cases hg : st.scratchpad.getLast? with
    | none => rw [hg] at he; simp at he
    | some e0 =>
        rw [hg] at he
        simp only [Option.map_some'] at he
        cases he
        rfl
  · rw [hred o]
    simp [_route_after_reflect]

/-- Witness for C2: a state with 5 completed steps and a budget of 5,
against two different oracle decisions (one urging a repair). -/
theorem C2_witness :
    getSteps (JFields.ofList [("steps", .num 5)]) ≥ (5 : Int)
  ∧ (reflect_node ⟨"g", [{ action := some trafficAction }],
        .ofList [("steps", .num 5)], false, []⟩
        ⟨false, "keep going", some ⟨"check_traffic", .nil⟩⟩ 5)
      = (reflect_node ⟨"g", [{ action := some trafficAction }],
          .ofList [("steps", .num 5)], false, []⟩
          ⟨true, "other", none⟩ 5)
  ∧ (reflect_node ⟨"g", [{ action := some trafficAction }],
        .ofList [("steps", .num 5)], false, []⟩
        ⟨false, "keep going", some ⟨"check_traffic", .nil⟩⟩ 5).consulted = false
  ∧ _route_after_reflect (reflect_node ⟨"g", [{ action := some trafficAction }],
        .ofList [("steps", .num 5)], false, []⟩
        ⟨false, "keep going", some ⟨"check_traffic", .nil⟩⟩ 5).state = "END" := by
  refine ⟨by decide, ?_⟩
  have h := C2_step_budget_stop
    ⟨"g", [{ action := some trafficAction }], .ofList [("steps", .num 5)], false, []⟩
    ⟨false, "keep going", some ⟨"check_traffic", .nil⟩⟩
    ⟨true, "other", none⟩ 5 (by decide)
  exact ⟨h.1, h.2.1, h.2.2.2.2.2.2.1⟩

/-! ## Dictionary lemmas for the step counter -/

/-- Assignment makes the key hold the assigned value. -/
theorem jfind_jset_self : ∀ (d : JFields) (k : String) (v : JVal),
    jfind (jset d k v) k = some v
  | .nil, k, v => by simp [jset, jfind]
  | .cons k2 v2 rest, k, v => by
      by_cases h : k2 == k
      · simp [jset, h, jfind]
      · simp only [jset, h, Bool.false_eq_true, if_false, jfind]
        exact jfind_jset_self rest k v

/-- Assignment to a different key does not change a lookup. -/
theorem jfind_jset_ne : ∀ (d : JFields) (k q : String) (v : JVal),
    (k == q) = false → jfind (jset d k v) q = jfind d q
  | .nil, k, q, v, h => by simp [jset, jfind, h]
  | .cons k2 v2 rest, k, q, v, h => by
      by_cases h2 : k2 == k
      · have hq : (k2 == q) = false := by
          have h2' : k2 = k := by simpa using h2
          subst h2'
          exact h
        simp [jset, h2, jfind, hq]
      · simp only [jset, h2, Bool.false_eq_true, if_false, jfind]
        by_cases h3 : k2 == q
        · simp [h3]
        · simp only [h3, Bool.false_eq_true, if_false]
          exact jfind_jset_ne rest k q v h

/-- Removing one key does not change lookups of another. -/
theorem jfind_jpop_ne : ∀ (d : JFields) (k q : String),
    (k == q) = false → jfind (jpop d k) q = jfind d q
  | .nil, _, _, _ => rfl
  | .cons k2 v2 rest, k, q, h => by
      by_cases h2 : k2 == k
      · have hq : (k2 == q) = false := by
          have h2' : k2 = k := by simpa using h2
          subst h2'
          exact h
        simp [jpop, h2, jfind, hq]
      · simp only [jpop, h2, Bool.false_eq_true, if_false, jfind]
        by_cases h3 : k2 == q
        · simp [h3]
        · simp only [h3, Bool.false_eq_true, if_false]
          exact jfind_jpop_ne rest k q h

/-- Merging a mapping that lacks a key does not change that key's lookup. -/
theorem jfind_jupdate_not_has : ∀ (obs d : JFields) (q : String),
    jhas obs q = false → jfind (jupdate d obs) q = jfind d q
  | .nil, _, _, _ => rfl
  | .cons k v rest, d, q, h => by
      simp only [jhas, jfind] at h
      by_cases hk : k == q
      · simp [hk] at h
      · simp only [hk, Bool.false_eq_true, if_false] at h
        simp only [jupdate]
        rw [jfind_jupdate_not_has rest (jset d k v) q (by simpa [jhas] using h),
            jfind_jset_ne d k q v (by simpa using hk)]

/-- The structured missing-args observation never carries a step counter. -/
theorem errorObs_no_steps (t : String) (m p : List String) :
    jhas (errorObs t m p) "steps" = false := by
  simp [errorObs, JFields.ofList, jhas, jfind]

/-! ## C3 — repair anti-thrash -/

/-- C3: below the step budget, when the oracle's decision carries a repair
equal (same tool name, `==`-equal argument mapping) to the most recently
recorded action, the repair never reaches Act: no record is appended
(history keeps its length), `solved` stays `false`, the override reason
replaces the reflection note attached to the last history record, the
facts — including the absent `pending_repair` flag — are untouched, the
recency window is untouched, and the router sends the run back to Plan. -/
theorem C3_repeated_repair_discarded (st : AgentState) (o : Decision) (m : Int)
    (rep : RepairAction)
    (hsteps : getSteps st.collected_data < m)
    (hrep : o.repair_action = some rep)
    (hsame : _same_action (some ⟨pyStrip rep.tool_name, rep.arguments⟩)
        st.recent_actions.getLast? = true)
    (hpend : _pending st.collected_data = false) :
    (reflect_node st o m).state.scratchpad.length = st.scratchpad.length
  ∧ (reflect_node st o m).state.solved = false
  ∧ (∀ e, (reflect_node st o m).state.scratchpad.getLast? = some e →
        e.reflection = some overrideDecision)
  ∧ (reflect_node st o m).state.recent_actions = st.recent_actions
  ∧ (reflect_node st o m).state.collected_data = st.collected_data
  ∧ _route_after_reflect (reflect_node st o m).state = "plan" := by
  have hnot : ¬ (getSteps st.collected_data ≥ m) := not_le.mpr hsteps
  have hsp2 : (reflect_node st o m).state.scratchpad =
      setLastRefl (setLastRefl st.scratchpad o) overrideDecision := by
    simp [reflect_node, hnot, hrep, hsame]
  have hsolved : (reflect_node st o m).state.solved = false := by
    simp [reflect_node, hnot, hrep, hsame]
  have hra : (reflect_node st o m).state.recent_actions = st.recent_actions := by
    simp [reflect_node, hnot, hrep, hsame]
  have hcd : (reflect_node st o m).state.collected_data = st.collected_data := by
    simp [reflect_node, hnot, hrep, hsame]
  refine ⟨?_, hsolved, ?_, hra, hcd, ?_⟩
  · rw [hsp2]
    simp [setLastRefl_length]
  · intro e he
    rw [hsp2] at he
    rw [setLastRefl_getLast?] at he
    cases hg : (setLastRefl st.scratchpad o).getLast? with
    | none => rw [hg] at he; simp at he
    | some e0 =>
        rw [hg] at he
        simp only [Option.map_some'] at he
        cases he
        rfl
  · simp [_route_after_reflect, hsolved, hcd, hpend]

/-- The concrete action used in the C3 witness state. -/
def trafficActionR3 : Action := ⟨"check_traffic", .ofList [("route_id", .str "R-3")]⟩

/-- Concrete run state for the C3 witness: a traffic check was just
executed (2 completed steps, budget 5). -/
def c3State : AgentState :=
  ⟨"Driver stuck", [{ action := some trafficActionR3 }],
   .ofList [("steps", .num 2)], false, [trafficActionR3]⟩

/-- The oracle decision of the C3 witness: it re-suggests the very same
traffic check as a repair. -/
def c3Oracle : Decision :=
  ⟨false, "retry the check", some ⟨"check_traffic", .ofList [("route_id", .str "R-3")]⟩⟩

/-- Witness for C3: the repeated repair is discarded and the run routes
back to Plan with history length unchanged. -/
theorem C3_witness :
    (reflect_node c3State c3Oracle 5).state.scratchpad.length
      = c3State.scratchpad.length
  ∧ (reflect_node c3State c3Oracle 5).state.solved = false
  ∧ _route_after_reflect (reflect_node c3State c3Oracle 5).state = "plan" := by
  have h := C3_repeated_repair_discarded c3State c3Oracle 5
    ⟨"check_traffic", .ofList [("route_id", .str "R-3")]⟩
    (by decide) rfl
    (by
      have hps : pyStrip "check_traffic" = "check_traffic" := by decide
      simp [c3State, trafficActionR3, _same_action, jdictEq, hps,
            JFields.ofList, jfieldsSub, jfindBeq, jvalBeq])
    (by decide)
  exact ⟨h.1, h.2.1, h.2.2.2.2.2⟩

/-! ## C4 — missing-arguments soft failure -/

/-- C4: when the most recent planned action resolves to a registered tool
but its filtered arguments lack required parameters, Act does not abort:
the tool is not invoked — the appended observation is the structured
`missing_required_args` error naming exactly the absent required parameter
names (and the provided keys) — the step counter still increments by one,
and the graph still routes Act to Reflect. -/
theorem C4_missing_args_soft_fail (st : AgentState) (e : Entry) (a : Action)
    (spec : ToolSpec)
    (hlast : st.scratchpad.getLast? = some e)
    (hact : e.action = some a)
    (hspec : toolSpec (pyStrip a.tool) = some spec)
    (hmiss : _missing_required_args spec (_filter_args_for_tool spec a.args) ≠ []) :
    act_node st = .ok (actApply st (errorObs (pyStrip a.tool)
        (_missing_required_args spec (_filter_args_for_tool spec a.args))
        (jkeys a.args)))
  ∧ (actApply st (errorObs (pyStrip a.tool)
        (_missing_required_args spec (_filter_args_for_tool spec a.args))
        (jkeys a.args))).scratchpad
      = st.scratchpad ++
          [{ observation := some (errorObs (pyStrip a.tool)
              (_missing_required_args spec (_filter_args_for_tool spec a.args))
              (jkeys a.args)) }]
  ∧ getSteps (actApply st (errorObs (pyStrip a.tool)
        (_missing_required_args spec (_filter_args_for_tool spec a.args))
        (jkeys a.args))).collected_data
      = getSteps st.collected_data + 1
  ∧ ("act", "reflect") ∈ graph_edges := by
  have hempty : (_missing_required_args spec (_filter_args_for_tool spec a.args)).isEmpty
      = false := by
    cases hm : _missing_required_args spec (_filter_args_for_tool spec a.args) with
    | nil => exact absurd hm hmiss
    | cons x xs => rfl
  refine ⟨?_, rfl, ?_, by simp [graph_edges]⟩
  · simp [act_node, hlast, hact, hspec, hempty]
  · have hobs := errorObs_no_steps (pyStrip a.tool)
      (_missing_required_args spec (_filter_args_for_tool spec a.args)) (jkeys a.args)
    simp only [actApply, getSteps]
    rw [jfind_jpop_ne _ _ _ (by decide), jfind_jset_self]
    have hup := jfind_jupdate_not_has (errorObs (pyStrip a.tool)
        (_missing_required_args spec (_filter_args_for_tool spec a.args))
        (jkeys a.args)) st.collected_data "steps" hobs
    simp only [getSteps, hup]

/-- Concrete state for the C4 witness: a safe-drop action planned with an
empty argument mapping. -/
def c4State : AgentState :=
  ⟨"Deliver order", [{ action := some ⟨"suggest_safe_drop_off", .nil⟩ }],
   .nil, false, []⟩

/-- Witness for C4: the missing-`address` soft failure — the run is not
aborted, the error observation lists exactly `["address"]`, and the step
counter increments. -/
theorem C4_witness :
    act_node c4State = .ok (actApply c4State (errorObs (pyStrip "suggest_safe_drop_off")
        (_missing_required_args ⟨[⟨"address", none⟩]⟩
          (_filter_args_for_tool ⟨[⟨"address", none⟩]⟩ JFields.nil))
        (jkeys JFields.nil)))
  ∧ getSteps (actApply c4State (errorObs (pyStrip "suggest_safe_drop_off")
        (_missing_required_args ⟨[⟨"address", none⟩]⟩
          (_filter_args_for_tool ⟨[⟨"address", none⟩]⟩ JFields.nil))
        (jkeys JFields.nil))).collected_data
      = getSteps c4State.collected_data + 1
  ∧ _missing_required_args (⟨[⟨"address", none⟩]⟩ : ToolSpec)
      (_filter_args_for_tool ⟨[⟨"address", none⟩]⟩ JFields.nil) = ["address"] := by
  have h := C4_missing_args_soft_fail c4State
    { action := some ⟨"suggest_safe_drop_off", .nil⟩ }
    ⟨"suggest_safe_drop_off", .nil⟩ ⟨[⟨"address", none⟩]⟩
    rfl rfl (by decide) (by decide)
  exact ⟨h.1, h.2.2.1, by decide⟩

/-! ## C5 — repetition avoidance (corrected) -/

/-- The locker action already recorded in the C5 counterexample state. -/
def c5LockerAction : Action := ⟨"find_nearby_locker", .ofList [("address", .str "A")]⟩

/-- Facts satisfying every prerequisite, so the gate does not interfere. -/
def c5Facts : JFields :=
  .ofList [("prep_minutes", .num 40), ("route_id", .str "R-3"),
           ("status", .str "ok"), ("delivered_instructions", .bool true)]

/-- C5 counterexample state: the locker action is the most recent recorded
action (it is the previous Plan's output). -/
def c5State : AgentState := ⟨"g", [], c5Facts, false, [c5LockerAction]⟩

/-- The stubborn oracle proposal: the very same locker action, returned both
as the initial proposal and again as the repetition re-proposal. -/
def c5Proposal : Proposal :=
  ⟨"", some "find_nearby_locker", some (.ofList [("address", .str "A")])⟩

/-- C5 counterexample: `recent_actions` already contains exactly the
candidate action, an alternative registered tool (`check_traffic`) exists,
the guard does fire (one re-proposal is made) — yet when the oracle repeats
the same action in the re-proposal, Plan's output equals the previous
action, refuting "two consecutive Plan outputs are never identical". -/
theorem C5_counterexample :
    c5State.recent_actions = [c5LockerAction]
  ∧ (plan_node c5State c5Proposal c5Proposal).reconsidered = true
  ∧ toolsContains "check_traffic" = true
  ∧ ("check_traffic" = c5LockerAction.tool → False)
  ∧ (plan_node c5State c5Proposal c5Proposal).chosen = c5LockerAction := by
  have hsame : _same_action
      (some ⟨"find_nearby_locker", JFields.ofList [("address", .str "A")]⟩)
      (some c5LockerAction) = true := by
    simp [_same_action, c5LockerAction, jdictEq, JFields.ofList,
          jfieldsSub, jfindBeq, jvalBeq]
  have hcand : planCandidate0 c5Proposal =
      some ⟨"find_nearby_locker", JFields.ofList [("address", .str "A")]⟩ := by
    simp [planCandidate0, c5Proposal, toolsContains, toolSpec, TOOLS]
  have hfire : planIsRepeat c5State (planCandidate0 c5Proposal) = true := by
    rw [hcand]
    simp [planIsRepeat, c5State, hsame]
  refine ⟨rfl, ?_, by decide, by decide, ?_⟩
  · simp [plan_node, hfire]
  · rw [plan_node_chosen]
    have hguard : planAfterGuard c5State (planCandidate0 c5Proposal) c5Proposal =
        some ⟨"find_nearby_locker", JFields.ofList [("address", .str "A")]⟩ := by
      rw [planAfterGuard, hfire]
      simp [c5Proposal, toolsContains, toolSpec, TOOLS]
    rw [hguard]
    simp [applyGate, applyGateAux, c5State, c5Facts, _has_merchant, _has_traffic,
          _attempted_contact, jhas, jfind, JFields.ofList, toolsContains, toolSpec,
          TOOLS, c5LockerAction]

/-- C5 amended: when the oracle-validated candidate `==`-equals the most
recently recorded action, the Plan phase does detect the repeat and makes
exactly one re-proposal oracle call; the re-proposal's action is adopted
when it names a registered tool (and, with all prerequisite facts present,
it is the phase's output) — but the code does not enforce that the adopted
re-proposal differ from the previous action, so consecutive identical
outputs remain possible (see the counterexample). -/
theorem C5_repetition_guard_amended (st : AgentState) (p r : Proposal)
    (c : Action)
    (hc : planCandidate0 p = some c)
    (hrepeat : _same_action (some c) st.recent_actions.getLast? = true) :
    (plan_node st p r).reconsidered = true
  ∧ (∀ t rargs, r.tool_name = some t → toolsContains t = true →
      r.arguments = some rargs →
      _has_merchant st.collected_data = true →
      _has_traffic st.collected_data = true →
      _attempted_contact st.collected_data = true →
      (plan_node st p r).chosen = ⟨t, rargs⟩) := by
  have hfire : planIsRepeat st (planCandidate0 p) = true := by
    simp [planIsRepeat, hc, hrepeat]
  constructor
  · simp [plan_node, hfire]
  · intro t rargs ht htool hargs h1 h2 h3
    rw [plan_node_chosen]
    have hguard : planAfterGuard st (planCandidate0 p) r = some ⟨t, rargs⟩ := by
      simp [planAfterGuard, hfire, ht, htool, hargs]
    rw [hguard, applyGate_all_facts _ _ h1 h2 h3]
    simp [applyGateAux, htool]

/-- Facts satisfying every prerequisite for the C5 witness. -/
def c5wFacts : JFields :=
  .ofList [("merchant_id", .str "M-1"), ("route_id", .str "R-1"),
           ("status", .str "ok"), ("delivered_instructions", .bool true)]

/-- C5 witness state: a safe-drop action was just recorded. -/
def c5wState : AgentState :=
  ⟨"g", [], c5wFacts, false, [⟨"suggest_safe_drop_off", .ofList [("address", .str "B")]⟩]⟩

/-- C5 witness proposals: the oracle repeats the safe-drop, then proposes a
locker on the re-proposal request. -/
def c5wRepeatProposal : Proposal :=
  ⟨"", some "suggest_safe_drop_off", some (.ofList [("address", .str "B")])⟩

/-- The different re-proposal of the C5 witness. -/
def c5wAltProposal : Proposal :=
  ⟨"", some "find_nearby_locker", some (.ofList [("address", .str "B")])⟩

/-- Witness for the amended C5: the guard fires and the registered different
re-proposal becomes the phase output. -/
theorem C5_witness :
    (plan_node c5wState c5wRepeatProposal c5wAltProposal).reconsidered = true
  ∧ (plan_node c5wState c5wRepeatProposal c5wAltProposal).chosen
      = ⟨"find_nearby_locker", .ofList [("address", .str "B")]⟩ := by
  have h := C5_repetition_guard_amended c5wState c5wRepeatProposal c5wAltProposal
    ⟨"suggest_safe_drop_off", .ofList [("address", .str "B")]⟩
    (by simp [planCandidate0, c5wRepeatProposal, toolsContains, toolSpec, TOOLS])
    (by simp [c5wState, _same_action, jdictEq, JFields.ofList,
              jfieldsSub, jfindBeq, jvalBeq])
  exact ⟨h.1, h.2 "find_nearby_locker" (.ofList [("address", .str "B")])
    rfl (by decide) rfl (by decide) (by decide) (by decide)⟩

/-! ## C6 — unknown tool handling (corrected) -/

/-- Facts satisfying every prerequisite, for the C6 counterexample. -/
def c6Facts : JFields :=
  .ofList [("prep_minutes", .num 12), ("route_id", .str "R-6"),
           ("status", .str "ok"), ("delivered_instructions", .bool true)]

/-- C6 counterexample state (no recorded actions, all prerequisites met). -/
def c6State : AgentState := ⟨"g", [], c6Facts, false, []⟩

/-- An oracle proposal naming a tool absent from the registry. -/
def c6Proposal : Proposal := ⟨"", some "teleport_package", some .nil⟩

/-- C6 counterexample: a Plan proposal naming the unregistered tool
`teleport_package` is **silently replaced** by the safe default drop-off
action — `plan_node` signals no error at all (its result type carries
none), refuting "the unknown name is never silently replaced by a default
tool" for proposals. -/
theorem C6_counterexample :
    toolsContains "teleport_package" = false
  ∧ (plan_node c6State c6Proposal c6Proposal).chosen
      = ⟨"suggest_safe_drop_off", .ofList [("address", .str "recipient address")]⟩ := by
  refine ⟨by decide, ?_⟩
  rw [plan_node_chosen]
  have hcand : planCandidate0 c6Proposal = none := by
    simp [planCandidate0, c6Proposal, toolsContains, toolSpec, TOOLS]
  have hguard : planAfterGuard c6State (planCandidate0 c6Proposal) c6Proposal = none := by
    simp [planAfterGuard, planIsRepeat, hcand]
  rw [hguard]
  simp [applyGate, applyGateAux, c6State, c6Facts, _has_merchant, _has_traffic,
        _attempted_contact, jhas, jfind, JFields.ofList, defaultDropAction]

/-- C6 amended: an action that reaches Act naming an unregistered tool
fails loudly — the registry lookup `TOOLS[tool_name]` raises, nothing is
substituted — while a Plan proposal naming an unregistered tool never
reaches Act as such: Plan always outputs a registered tool, substituting
the prerequisite action or the safe default for the unknown name without
signalling an error. -/
theorem C6_unknown_tool_amended (st : AgentState) (e : Entry) (a : Action)
    (p r : Proposal) :
    (st.scratchpad.getLast? = some e → e.action = some a →
      toolSpec (pyStrip a.tool) = none →
      act_node st = .error (.unknownTool (pyStrip a.tool)))
  ∧ toolsContains (plan_node st p r).chosen.tool = true := by
  constructor
  · intro hlast hact hspec
    simp [act_node, hlast, hact, hspec]
  · rw [plan_node_chosen]
    exact applyGate_registered _ _

/-- C6 witness state: a queued action naming an unregistered tool. -/
def c6wState : AgentState :=
  ⟨"g", [{ action := some ⟨"frobnicate", .nil⟩ }], .nil, false, []⟩

/-- Witness for the amended C6: Act on the unregistered tool `frobnicate`
fails with the loud lookup error, and a Plan phase output is always a
registered tool. -/
theorem C6_witness :
    act_node c6wState = .error (.unknownTool (pyStrip "frobnicate"))
  ∧ toolsContains (plan_node c6wState ⟨"", none, none⟩ ⟨"", none, none⟩).chosen.tool
      = true := by
  have h := C6_unknown_tool_amended c6wState
    { action := some ⟨"frobnicate", .nil⟩ } ⟨"frobnicate", .nil⟩
    ⟨"", none, none⟩ ⟨"", none, none⟩
  exact ⟨h.1 rfl rfl (by decide), h.2⟩

/-! ## C7 — history growth per phase (corrected) -/

/-- C7 counterexample state: one completed step, one history record. -/
def c7cState : AgentState :=
  ⟨"g", [{ action := some ⟨"check_traffic", .ofList [("route_id", .str "R-1")]⟩ }],
   .ofList [("steps", .num 1)], false, []⟩

/-- The oracle decision of the C7 counterexample: stop, no repair. -/
def c7cDecision : Decision := ⟨true, "done", none⟩

/-- C7 counterexample: a Reflect phase (stop decision, no repair, budget not
reached) leaves the history length unchanged — refuting "the length of the
history sequence strictly increases during every executed phase". -/
theorem C7_counterexample :
    (reflect_node c7cState c7cDecision 5).state.scratchpad.length
      = c7cState.scratchpad.length
  ∧ ¬ (c7cState.scratchpad.length <
        (reflect_node c7cState c7cDecision 5).state.scratchpad.length) := by
  refine ⟨by decide, ?_⟩
  have h : (reflect_node c7cState c7cDecision 5).state.scratchpad.length
      = c7cState.scratchpad.length := by decide
  omega

/-- The three possible history shapes a Reflect phase produces: reflection
attached (no repair / stop path), reflection overwritten by the override
note (repeated repair), or reflection attached plus one appended repair
record (distinct repair). -/
theorem reflect_scratchpad_cases (st : AgentState) (o : Decision) (m : Int) :
    (∃ d, (reflect_node st o m).state.scratchpad = setLastRefl st.scratchpad d)
  ∨ (∃ d, (reflect_node st o m).state.scratchpad =
        setLastRefl (setLastRefl st.scratchpad d) overrideDecision)
  ∨ (∃ d e, (reflect_node st o m).state.scratchpad
        = setLastRefl st.scratchpad d ++ [e]) := by
  cases hrep : (if getSteps st.collected_data ≥ m then budgetDecision m else o).repair_action with
  | none =>
      left
      exact ⟨if getSteps st.collected_data ≥ m then budgetDecision m else o,
        by simp [reflect_node, hrep]⟩
  | some repair =>
      by_cases hsame : _same_action
          (some ⟨pyStrip repair.tool_name, repair.arguments⟩)
          st.recent_actions.getLast? = true
      · right; left
        exact ⟨if getSteps st.collected_data ≥ m then budgetDecision m else o,
          by simp [reflect_node, hrep, hsame]⟩
      · right; right
        exact ⟨if getSteps st.collected_data ≥ m then budgetDecision m else o,
          { thought := some "repair",
            action := some ⟨pyStrip repair.tool_name, repair.arguments⟩ },
          by simp [reflect_node, hrep, hsame]⟩

/-- C7 amended: Plan appends exactly two records and Act (when it returns)
exactly one, both preserving every existing record; Reflect never truncates
or reorders the history — it attaches (or overwrites) the reflection of the
final record, leaves every earlier record untouched, and appends at most
one record (exactly when a distinct repair is queued), so its history length
grows by zero or one rather than strictly. -/
theorem C7_history_append_only_amended (st : AgentState) (p r : Proposal)
    (o : Decision) (m : Int) :
    (plan_node st p r).state.scratchpad.length = st.scratchpad.length + 2
  ∧ (plan_node st p r).state.scratchpad.take st.scratchpad.length = st.scratchpad
  ∧ (∀ st', act_node st = .ok st' →
      st'.scratchpad.length = st.scratchpad.length + 1
      ∧ st'.scratchpad.take st.scratchpad.length = st.scratchpad)
  ∧ st.scratchpad.length ≤ (reflect_node st o m).state.scratchpad.length
  ∧ (reflect_node st o m).state.scratchpad.length ≤ st.scratchpad.length + 1
  ∧ (reflect_node st o m).state.scratchpad.take (st.scratchpad.length - 1)
      = st.scratchpad.take (st.scratchpad.length - 1)
  ∧ ((reflect_node st o m).state.scratchpad.take st.scratchpad.length).map clearRefl
      = st.scratchpad.map clearRefl := by
  refine ⟨?_, ?_, ?_, ?_, ?_, ?_, ?_⟩
  · simp [plan_node]
  · show (st.scratchpad ++ _).take st.scratchpad.length = st.scratchpad
    exact List.take_left _ _
  · intro st' h
    unfold act_node at h
    cases hlast : st.scratchpad.getLast? with
    | none => rw [hlast] at h; exact absurd h (by simp)
    | some last =>
        rw [hlast] at h
        dsimp only at h
        cases hspec : toolSpec
            (pyStrip (match last.action with | some a => a.tool | none => "")) with
        | none => rw [hspec] at h; exact absurd h (by simp)
        | some spec =>
            rw [hspec] at h
            simp only [Except.ok.injEq] at h
            rw [← h]
            refine ⟨by simp [actApply], ?_⟩
            show (st.scratchpad ++ _).take st.scratchpad.length = st.scratchpad
            exact List.take_left _ _
  · rcases reflect_scratchpad_cases st o m with ⟨d, hs⟩ | ⟨d, hs⟩ | ⟨d, e, hs⟩ <;>
      rw [hs] <;> simp [setLastRefl_length]
  · rcases reflect_scratchpad_cases st o m with ⟨d, hs⟩ | ⟨d, hs⟩ | ⟨d, e, hs⟩ <;>
      rw [hs] <;> simp [setLastRefl_length]
  · rcases reflect_scratchpad_cases st o m with ⟨d, hs⟩ | ⟨d, hs⟩ | ⟨d, e, hs⟩ <;> rw [hs]
    · exact setLastRefl_take_pred st.scratchpad d
    · have h1 := setLastRefl_take_pred (setLastRefl st.scratchpad d) overrideDecision
      rw [setLastRefl_length] at h1
      rw [h1]
      exact setLastRefl_take_pred st.scratchpad d
    · rw [List.take_append_of_le_length
        (by rw [setLastRefl_length]; omega)]
      exact setLastRefl_take_pred st.scratchpad d
  · rcases reflect_scratchpad_cases st o m with ⟨d, hs⟩ | ⟨d, hs⟩ | ⟨d, e, hs⟩ <;> rw [hs]
    · rw [List.take_of_length_le (by rw [setLastRefl_length])]
      exact setLastRefl_map_clearRefl st.scratchpad d
    · rw [List.take_of_length_le (by rw [setLastRefl_length, setLastRefl_length])]
      rw [setLastRefl_map_clearRefl, setLastRefl_map_clearRefl]
    · rw [List.take_left' (setLastRefl_length st.scratchpad d)]
      exact setLastRefl_map_clearRefl st.scratchpad d

/-- C7 witness state: one planned traffic check awaiting execution. -/
def c7wState : AgentState :=
  ⟨"g", [{ action := some ⟨"check_traffic", .ofList [("route_id", .str "R-1")]⟩ }],
   .nil, false, []⟩

/-- Witness for the amended C7: Act succeeds on the traffic check and
appends exactly one record, preserving the existing one. -/
theorem C7_witness :
    act_node c7wState = .ok (actApply c7wState (check_traffic (.str "R-1")))
  ∧ (actApply c7wState (check_traffic (.str "R-1"))).scratchpad.length
      = c7wState.scratchpad.length + 1
  ∧ (actApply c7wState (check_traffic (.str "R-1"))).scratchpad.take
        c7wState.scratchpad.length = c7wState.scratchpad := by
  have hact : act_node c7wState
      = .ok (actApply c7wState (check_traffic (.str "R-1"))) := rfl
  have h := (C7_history_append_only_amended c7wState ⟨"", none, none⟩ ⟨"", none, none⟩
      ⟨false, "", none⟩ 5).2.2.1 _ hact
  exact ⟨hact, h.1, h.2⟩

/-! ## C8 — oracle output parsing discipline (corrected) -/

/-- C8 amended: the raw-text parse is attempted first and its success is
returned; when it fails, the greedy first-open-brace‥last-close-brace span
(not the first *balanced* substring) is parsed, a failure of that parse
propagating as a plain decode error that does **not** carry the raw text;
only when no span exists at all is the format error preserving the raw
text signalled. -/
theorem C8_extract_json_amended (s : String) (v : JVal) :
    (loads s = some v → _extract_json s = .ok v)
  ∧ (loads s = none → _extract_json_span s = none →
      _extract_json s = .error (.valueError s))
  ∧ (∀ sub, loads s = none → _extract_json_span s = some sub → loads sub = none →
      _extract_json s = .error .jsonDecodeError)
  ∧ (∀ sub w, loads s = none → _extract_json_span s = some sub →
      loads sub = some w → _extract_json s = .ok w) := by
  refine ⟨?_, ?_, ?_, ?_⟩
  · intro h; simp [_extract_json, h]
  · intro h1 h2; simp [_extract_json, h1, h2]
  · intro sub h1 h2 h3; simp [_extract_json, h1, h2, h3]
  · intro sub w h1 h2 h3; simp [_extract_json, h1, h2, h3]

/-- The C8 counterexample text: two JSON objects separated by prose. -/
def c8Text : String := "\x7b\"a\":1\x7d x \x7b\"b\":2\x7d"

/-- C8 counterexample: on `c8Text` both parse attempts fail, yet the error
is the propagated decode error, not the format error preserving the raw
text; and the spec-described first-*balanced*-substring extraction would
have succeeded — refuting both the "first balanced substring" description
and "signals a format error whose message preserves the raw text". -/
theorem C8_counterexample :
    _extract_json c8Text = .error .jsonDecodeError
  ∧ _extract_json_specBalanced c8Text = .ok (.obj (.cons "a" (.num 1) .nil))
  ∧ (∀ raw, _extract_json c8Text = .error (.valueError raw) → False) := by
  have h1 : _extract_json c8Text = .error .jsonDecodeError := rfl
  refine ⟨h1, rfl, ?_⟩
  intro raw h
  rw [h1] at h
  simp at h

/-- Witness for the amended C8: a directly parsable object is returned by
the first attempt. -/
theorem C8_witness :
    loads "\x7b\x7d" = some (.obj .nil)
  ∧ _extract_json "\x7b\x7d" = .ok (.obj .nil) := by
  have hl : loads "\x7b\x7d" = some (.obj .nil) := by decide
  exact ⟨hl, (C8_extract_json_amended "{}" (.obj .nil)).1 hl⟩

/-! ## C9 — idempotent memory persistence -/

/-- Re-upserting the same id and document is a no-op. -/
theorem upsert_upsert (store : List MemEntry) (id doc : String) :
    upsert (upsert store id doc) id doc = upsert store id doc := by
  by_cases h : store.any (fun e => e.id == id)
  · have h1 : upsert store id doc
        = store.map (fun e => if e.id == id then ⟨id, doc⟩ else e) := by
      simp [upsert, h]
    have h2 : (store.map (fun e => if e.id == id then ⟨id, doc⟩ else e)).any
        (fun e => e.id == id) = true := by
      rw [List.any_map]
      rcases List.any_eq_true.mp h with ⟨e, he, hid⟩
      refine List.any_eq_true.mpr ⟨e, he, ?_⟩
      simp only [Function.comp]
      by_cases hc : e.id == id <;> simp_all
    rw [h1]
    simp only [upsert, h2, if_true]
    rw [List.map_map]
    refine List.map_congr_left ?_
    intro e _
    by_cases hc : e.id == id <;> simp [Function.comp, hc]
  · have hall : ∀ e ∈ store, (e.id == id) = false := by
      intro e he
      rcases Bool.eq_false_or_eq_true (e.id == id) with ht | hf
      · exact absurd (List.any_eq_true.mpr ⟨e, he, ht⟩) h
      · exact hf
    have h1 : upsert store id doc = store ++ [⟨id, doc⟩] := by
      simp [upsert, h]
    have h2 : (store ++ [(⟨id, doc⟩ : MemEntry)]).any (fun e => e.id == id) = true := by
      simp
    rw [h1]
    simp only [upsert, h2, if_true]
    rw [List.map_append]
    have h3 : store.map (fun e => if e.id == id then (⟨id, doc⟩ : MemEntry) else e)
        = store := by
      refine (List.map_congr_left ?_).trans (List.map_id store)
      intro e he
      simp [hall e he]
    rw [h3]
    simp

/-- After an upsert against a store free of duplicate ids, exactly one
entry carries the upserted id. -/
theorem countWithId_upsert (store : List MemEntry) (id doc : String)
    (h : countWithId store id ≤ 1) :
    countWithId (upsert store id doc) id = 1 := by
  unfold countWithId at h ⊢
  rw [← List.countP_eq_length_filter] at h ⊢
  by_cases hany : store.any (fun e => e.id == id)
  · simp only [upsert, hany, if_true]
    rw [List.countP_map]
    have heq : store.countP
        ((fun e => e.id == id) ∘ fun e => if e.id == id then ⟨id, doc⟩ else e)
        = store.countP (fun e => e.id == id) := by
      refine List.countP_congr ?_
      intro e _
      by_cases hc : e.id == id <;> simp [Function.comp, hc]
    rw [heq]
    have hpos : 0 < store.countP (fun e => e.id == id) := by
      rcases List.any_eq_true.mp hany with ⟨e, he, hid⟩
      exact List.countP_pos_iff.mpr ⟨e, he, hid⟩
    omega
  · have hup : upsert store id doc = store ++ [⟨id, doc⟩] := by
      simp [upsert, hany]
    rw [hup, List.countP_append]
    have hzero : store.countP (fun e => e.id == id) = 0 := by
      refine List.countP_eq_zero.mpr ?_
      intro e he ht
      exact absurd (List.any_eq_true.mpr ⟨e, he, ht⟩) hany
    simp [hzero]

/-- C9: `remember` is idempotent — submitting the identical run summary a
second time rewrites the same content-hashed entry in place, so (in a store
whose ids are unique, as the vector store guarantees) exactly one entry
with that identifier is stored. -/
theorem C9_remember_idempotent (store : List MemEntry) (r : RunDict)
    (h : countWithId store (_stable_id (summaryText r)) ≤ 1) :
    remember (remember store r) r = remember store r
  ∧ countWithId (remember store r) (_stable_id (summaryText r)) = 1 := by
  constructor
  · unfold remember
    exact upsert_upsert store _ _
  · unfold remember
    exact countWithId_upsert store _ _ h

/-- The concrete run summary of the C9 witness. -/
def c9Run : RunDict :=
  ⟨"resolve late delivery",
   [.obj (.cons "thought" (.str "check merchant") .nil),
    .obj (.cons "observation" (.str "prep 40 min") .nil)]⟩

/-- Witness for C9: starting from the empty store, remembering the same
summary twice stores exactly one entry. -/
theorem C9_witness :
    remember (remember [] c9Run) c9Run = remember [] c9Run
  ∧ countWithId (remember [] c9Run) (_stable_id (summaryText c9Run)) = 1 := by
  have h := C9_remember_idempotent [] c9Run (by simp [countWithId])
  exact ⟨h.1, h.2⟩

/-! ## C10 — gate and default actions are always executable -/

/-- The validation Act would perform on an action: `none` when the tool is
unregistered, otherwise the required parameters still missing after
filtering its arguments. -/
def missingFor (a : Action) : Option (List String) :=
  (toolSpec a.tool).map (fun spec =>
    _missing_required_args spec (_filter_args_for_tool spec a.args))

/-- C10: each action the prerequisite gate or the safe-default fallback can
substitute (merchant status with `merchant_id`, traffic check with
`route_id`, recipient contact with `order_id`, safe drop-off with
`address`) resolves to a registered tool with no missing required
parameters — and every Plan output is either the oracle candidate passed
through or one of exactly these substituted actions, so the
`missing_required_args` branch of Act is unreachable for gate-chosen or
default-chosen actions. -/
theorem C10_gate_default_args_complete (cd : JFields) (c : Option Action) :
    missingFor merchantAction = some []
  ∧ missingFor trafficAction = some []
  ∧ missingFor contactAction = some []
  ∧ missingFor (defaultDropAction cd) = some []
  ∧ ((∃ a, c = some a ∧ applyGate cd c = a)
      ∨ applyGate cd c = merchantAction
      ∨ applyGate cd c = trafficAction
      ∨ applyGate cd c = contactAction
      ∨ applyGate cd c = defaultDropAction cd) := by
  refine ⟨by decide, by decide, by decide, ?_, ?_⟩
  · simp [missingFor, defaultDropAction, toolSpec, TOOLS, _filter_args_for_tool,
          _missing_required_args, jhas, jfind, JFields.ofList]
  · by_cases h1 : _has_merchant cd
    case neg =>
      right; left
      exact applyGate_no_merchant cd c (by simpa using h1)
    case pos =>
    by_cases h2 : _has_traffic cd
    case neg =>
      right; right; left
      exact applyGate_no_traffic cd c h1 (by simpa using h2)
    case pos =>
    by_cases h3 : _attempted_contact cd
    case neg =>
      right; right; right; left
      exact applyGate_no_contact cd c h1 h2 (by simpa using h3)
    case pos =>
    rw [applyGate_all_facts cd c h1 h2 h3]
    cases c with
    | none => right; right; right; right; simp [applyGateAux]
    | some a =>
        by_cases htool : toolsContains a.tool
        · left; exact ⟨a, rfl, by simp [applyGateAux, htool]⟩
        · right; right; right; right; simp [applyGateAux, htool]

end GrabHack
